import Mathlib

set_option maxHeartbeats 1000000

/-!
Shallow embedding of the core of the spec-driven code generator:
the type system (framework/spec/types.py), model and variant resolution
(framework/spec/models.py), the operation specifications
(framework/spec/operations.py), the loader's cross-reference validation
(framework/spec/loader.py), the controller-stub generator
(framework/generators/controllers.py) and the shared HTTP client retry loop
(shared/http_client.py, services/tg_bot/src/main.py).

Python dicts are embedded as ordered association lists (insertion order is
observable in the source through iteration), Python exceptions as
Option/Except results, and Python truthiness of optional strings explicitly.
-/

/-- JSON-like values: the codomain of the structural schema renderers. -/
inductive JValue where
  | jnull
  | jbool (b : Bool)
  | jint (n : Int)
  | jstr (s : String)
  | jarr (items : List JValue)
  | jobj (fields : List (String × JValue))

/-- An ordered JSON object; Python dicts preserve insertion order. -/
abbrev JObj := List (String × JValue)

/-- Python dict assignment d[k] = v: overwrite in place when the key exists
(keeping its position, as CPython does), else append at the end. -/
def jobjSet (fields : JObj) (k : String) (v : JValue) : JObj :=
  if (fields.map Prod.fst).contains k then
    fields.map (fun kv => if kv.1 = k then (kv.1, v) else kv)
  else fields ++ [(k, v)]

/-- Python truthiness of an optional string: None and the empty string are falsy. -/
def strTruthy : Option String → Bool
  | none => false
  | some s => !s.isEmpty

/-- Python str.isidentifier, modeled over its ASCII fragment: a letter or an
underscore followed by letters, digits or underscores. -/
def isPyIdentifier (s : String) : Bool :=
  match s.data with
  | [] => false
  | c :: cs => (c.isAlpha || c == '_') && cs.all (fun d => d.isAlphanum || d == '_')

/-- Python str.startswith, over the character list (the byte-based
String.startsWith of the library does not reduce in the kernel). -/
def pyStartsWith (s pre : String) : Bool := pre.data.isPrefixOf s.data

/-- Python str.endswith, over the character list. -/
def pyEndsWith (s suf : String) : Bool := suf.data.isSuffixOf s.data

/-- The Python slice s[n:], over the character list. -/
def pyDrop (s : String) (n : Nat) : String := ⟨s.data.drop n⟩

/-- The Python slice s[:-n], over the character list. -/
def pyDropRight (s : String) (n : Nat) : String := ⟨s.data.take (s.data.length - n)⟩

/-- The closed variant set of the type grammar (framework/spec/types.py):
PrimitiveType, ListType, DictType, OptionalType, EnumType. The primitive kind
is carried as its literal string; membership in PRIMITIVE_TYPES is what the
pydantic Literal annotation checks at parse time. -/
inductive TypeSpec where
  | primitive (type_ : String)
  | list (of : TypeSpec)
  | dict (key : TypeSpec) (value : TypeSpec)
  | optional (of : TypeSpec)
  | enum (values : List String) (default : Option String)
deriving DecidableEq

/-- PRIMITIVE_TYPES = Literal["int", "string", "bool", "float", "datetime", "uuid"]. -/
def PRIMITIVE_TYPES : List String := ["int", "string", "bool", "float", "datetime", "uuid"]

/-- isinstance(spec, PrimitiveType). -/
def TypeSpec.isPrimitive : TypeSpec → Bool
  | .primitive _ => true
  | _ => false

/-- EnumType.validate_values: at least 2 values, all unique (len(v) == len(set(v))
is embedded as comparison with the deduplicated length), each a valid identifier
with no leading underscore; the loop raises at the first offending value. -/
def validate_values (v : List String) : Except String (List String) :=
  if v.length < 2 then .error "Enum must have at least 2 values"
  else if v.length ≠ v.dedup.length then .error "Enum values must be unique"
  else
    match v.find? (fun val => !(isPyIdentifier val) || pyStartsWith val "_") with
    | some val =>
        .error ("Enum value '" ++ val ++ "' must be a valid identifier (no spaces, no leading underscore)")
    | none => .ok v

/-- EnumType.validate_default_in_values: a default, if present, must be one of
the enum values. -/
def validate_default_in_values (values : List String) (default : Option String) :
    Except String Unit :=
  match default with
  | some d =>
      if d ∈ values then .ok ()
      else .error ("Default '" ++ d ++ "' is not in enum values")
  | none => .ok ()

/-- The validation pydantic runs while parsing or constructing a TypeSpec tree
(parse_type_spec via the discriminated-union TypeAdapter): the Literal check on
a primitive kind, DictType.validate_key_type, and EnumType.validate_values /
validate_default_in_values, applied recursively to every node. -/
def validateTypeSpec : TypeSpec → Except String Unit
  | .primitive t =>
      if PRIMITIVE_TYPES.contains t then .ok ()
      else .error ("Unknown primitive type: '" ++ t ++ "'")
  | .list of => validateTypeSpec of
  | .optional of => validateTypeSpec of
  | .dict k v =>
      match validateTypeSpec k with
      | .error e => .error e
      | .ok _ =>
          match validateTypeSpec v with
          | .error e => .error e
          | .ok _ =>
              if k.isPrimitive then .ok ()
              else .error "Dict key must be a primitive type (typically 'string')"
  | .enum values default =>
      match validate_values values with
      | .error e => .error e
      | .ok _ => validate_default_in_values values default

/-- The primitive branch mapping of type_spec_to_python. -/
def pythonPrimitiveMapping : List (String × String) :=
  [("int", "int"), ("string", "str"), ("bool", "bool"), ("float", "float"),
   ("datetime", "AwareDatetime"), ("uuid", "UUID")]

/-- type_spec_to_python: renders a TypeSpec as a Python type annotation string.
The dictionary lookup on the primitive kind can fail (KeyError) and the final
fallthrough raises ValueError; both failure modes are modeled as none. -/
def type_spec_to_python : TypeSpec → Option String
  | .primitive t => List.lookup t pythonPrimitiveMapping
  | .list of => (type_spec_to_python of).map (fun inner => "list[" ++ inner ++ "]")
  | .dict k v =>
      match type_spec_to_python k, type_spec_to_python v with
      | some key, some value => some ("dict[" ++ key ++ ", " ++ value ++ "]")
      | _, _ => none
  | .optional of => (type_spec_to_python of).map (fun inner => inner ++ " | None")
  | .enum _ _ => some "str"

/-- The primitive branch mapping of type_spec_to_json_schema. -/
def jsonPrimitiveMapping : List (String × JObj) :=
  [("int", [("type", .jstr "integer")]),
   ("string", [("type", .jstr "string")]),
   ("bool", [("type", .jstr "boolean")]),
   ("float", [("type", .jstr "number")]),
   ("datetime", [("type", .jstr "string"), ("format", .jstr "date-time")]),
   ("uuid", [("type", .jstr "string"), ("format", .jstr "uuid")])]

/-- type_spec_to_json_schema: lowers a TypeSpec to a structural JSON-Schema
dict. Optional merges a nullable flag into the inner schema ({**inner,
"nullable": True}); Enum becomes a string with an enumerated value list and an
optional default. Failures (KeyError / the fallthrough ValueError) are none. -/
def type_spec_to_json_schema : TypeSpec → Option JObj
  | .primitive t => List.lookup t jsonPrimitiveMapping
  | .list of =>
      (type_spec_to_json_schema of).map
        (fun inner => [("type", .jstr "array"), ("items", .jobj inner)])
  | .dict _ v =>
      (type_spec_to_json_schema v).map
        (fun inner => [("type", .jstr "object"), ("additionalProperties", .jobj inner)])
  | .optional of =>
      (type_spec_to_json_schema of).map
        (fun inner => jobjSet inner "nullable" (.jbool true))
  | .enum values default =>
      let schema : JObj := [("type", .jstr "string"), ("enum", .jarr (values.map .jstr))]
      some (match default with
            | some d => jobjSet schema "default" (.jstr d)
            | none => schema)

/-- FieldSpec (framework/spec/models.py): a single field of a model. The
numeric constraint payloads are carried as integers (they are only passed
through into the schema, never computed with); default is the raw value with
none standing for Python None, which the source reads as "no default". -/
structure FieldSpec where
  type_spec : TypeSpec
  ge : Option Int := none
  gt : Option Int := none
  le : Option Int := none
  lt : Option Int := none
  min_length : Option Nat := none
  max_length : Option Nat := none
  readonly : Bool := false
  optional : Bool := false
  default : Option JValue := none

/-- FieldSpec.to_json_schema: the type schema plus the constraint keys that are
set, plus default / readOnly / nullable flags, in source order. -/
def FieldSpec.to_json_schema (f : FieldSpec) : Option JObj :=
  (type_spec_to_json_schema f.type_spec).map (fun schema =>
    let schema := match f.ge with
      | some v => jobjSet schema "minimum" (.jint v)
      | none => schema
    let schema := match f.gt with
      | some v => jobjSet schema "exclusiveMinimum" (.jint v)
      | none => schema
    let schema := match f.le with
      | some v => jobjSet schema "maximum" (.jint v)
      | none => schema
    let schema := match f.lt with
      | some v => jobjSet schema "exclusiveMaximum" (.jint v)
      | none => schema
    let schema := match f.min_length with
      | some v => jobjSet schema "minLength" (.jint v)
      | none => schema
    let schema := match f.max_length with
      | some v => jobjSet schema "maxLength" (.jint v)
      | none => schema
    let schema := match f.default with
      | some v => jobjSet schema "default" v
      | none => schema
    let schema := if f.readonly then jobjSet schema "readOnly" (.jbool true) else schema
    let schema := if f.optional then jobjSet schema "nullable" (.jbool true) else schema
    schema)

/-- VariantSpec: field names excluded from, or made optional in, a variant. -/
structure VariantSpec where
  exclude : List String := []
  optional : List String := []
deriving DecidableEq

/-- ModelSpec: an ordered field map and a variant map, both embedded as
association lists in declaration order. -/
structure ModelSpec where
  fields : List (String × FieldSpec)
  variants : List (String × VariantSpec) := []

/-- ModelSpec.get_variant_fields: all fields for an undeclared variant name
(the base model); otherwise the fields minus the variant's excludes, and minus
every readonly field when the variant is named Create or Update. -/
def ModelSpec.get_variant_fields (m : ModelSpec) (variant_name : String) :
    List (String × FieldSpec) :=
  match List.lookup variant_name m.variants with
  | none => m.fields
  | some variant =>
      m.fields.filter (fun nf =>
        !(variant.exclude.contains nf.1) &&
        !(nf.2.readonly && (variant_name == "Create" || variant_name == "Update")))

/-- ModelsSpec: the root container mapping model names to models. -/
structure ModelsSpec where
  models : List (String × ModelSpec)

/-- ModelsSpec.get_model_names: every model name plus every
"{model}{variant}" combination (the source builds a set; membership is what
the loader consumes, so the insertion-ordered list is kept). -/
def ModelsSpec.get_model_names (ms : ModelsSpec) : List String :=
  (ms.models.map (fun mp => mp.1 :: mp.2.variants.map (fun vp => mp.1 ++ vp.1))).flatten

/-- The result dict of ModelsSpec._model_to_schema. The source dict also
carries the constant entries "type": "object" and "additionalProperties":
False; the varying entries are the title, the properties and the required
list. -/
structure ModelSchema where
  title : String
  properties : JObj
  required : List String

/-- The field loop of ModelsSpec._model_to_schema: renders every field into
properties and collects the required names — a field is required iff it is not
in the view's variant-level optional set, its FieldSpec is not optional, and it
has no default. A field whose schema rendering fails propagates the failure. -/
def buildSchemaFields (fields : List (String × FieldSpec)) (optional_fields : List String) :
    Option (JObj × List String) :=
  match fields with
  | [] => some ([], [])
  | (field_name, f) :: rest =>
      match f.to_json_schema, buildSchemaFields rest optional_fields with
      | some fschema, some (props, req) =>
          let is_variant_optional := optional_fields.contains field_name
          let is_field_optional := f.optional
          let has_default := f.default.isSome
          some ((field_name, .jobj fschema) :: props,
            if !is_variant_optional && !is_field_optional && !has_default
            then field_name :: req else req)
      | _, _ => none

/-- ModelsSpec._model_to_schema: the schema of the base model (variant_name
falsy, i.e. None or empty) or of one declared variant. The variant branch
reads model.variants[variant_name] (a KeyError on an undeclared name is
modeled as none) and uses the variant's own optional set. -/
def model_to_schema (model_name : String) (model : ModelSpec)
    (variant_name : Option String) : Option ModelSchema :=
  if strTruthy variant_name then
    match List.lookup (variant_name.getD "") model.variants with
    | none => none
    | some variant =>
        match buildSchemaFields (model.get_variant_fields (variant_name.getD ""))
            variant.optional with
        | none => none
        | some (props, req) => some ⟨model_name ++ variant_name.getD "", props, req⟩
  else
    match buildSchemaFields model.fields [] with
    | none => none
    | some (props, req) => some ⟨model_name, props, req⟩

/-- ParamSpec (framework/spec/operations.py): an operation parameter. -/
structure ParamSpec where
  name : String
  type_ : String := "str"
  required : Bool := true

/-- RestConfig: REST transport configuration of an operation. -/
structure RestConfig where
  method : String
  path : String := ""
  status : Option Nat := none

/-- RestConfig.effective_status: the explicit status, else 201 for POST,
204 for DELETE, 200 otherwise. -/
def RestConfig.effective_status (r : RestConfig) : Nat :=
  match r.status with
  | some s => s
  | none =>
      if r.method == "POST" then 201
      else if r.method == "DELETE" then 204
      else 200

/-- EventsConfig: bus transport configuration of an operation. -/
structure EventsConfig where
  subscribe : Option String := none
  publish_on_success : Option String := none

/-- EventsConfig.validate_at_least_one: at least one direction must be set
(Python truthiness: a missing or empty channel string is falsy). -/
def EventsConfig.validate_at_least_one (e : EventsConfig) : Except String EventsConfig :=
  if !(strTruthy e.subscribe) && !(strTruthy e.publish_on_success) then
    .error "Events config must have 'subscribe' or 'publish_on_success' (or both)"
  else .ok e

/-- OperationSpec: a named, transport-agnostic operation with optional REST
and Events transports. -/
structure OperationSpec where
  name : String := ""
  input_model : Option String := none
  output_model : Option String := none
  params : List ParamSpec := []
  rest : Option RestConfig := none
  events : Option EventsConfig := none

/-- OperationSpec.validate_has_transport: at least one transport must be
configured. -/
def OperationSpec.validate_has_transport (op : OperationSpec) : Except String OperationSpec :=
  if !op.rest.isSome && !op.events.isSome then
    .error ("Operation '" ++ op.name ++ "' must have at least one transport (rest or events)")
  else .ok op

/-- The transport-configuration error class of the error taxonomy. -/
inductive SpecError where
  | transportConfigError (msg : String)
deriving DecidableEq

/-- Modelled from the spec: the construction-time validation of OperationSpec
in framework/spec/operations.py — the module framework/spec/loader.py imports
and tests/unit/test_operations.py exercises — is not among the sources (the
copy under test-sync-markers/framework/spec/operations.py is an older fixture
carrying only the has-transport check). Per the spec, at least one transport
must be present, and a bus transport with a subscribe channel requires an
input_model (a subscriber needs a message type to deserialize into); both
violations are transport-configuration errors raised while the operation
document is loaded, before any generator runs. -/
def validateOperationSpec (op : OperationSpec) : Except SpecError OperationSpec :=
  if !op.rest.isSome && !op.events.isSome then
    .error (.transportConfigError
      ("Operation '" ++ op.name ++ "' must have at least one transport (rest or events)"))
  else
    match op.events with
    | some e =>
        if strTruthy e.subscribe && !(strTruthy op.input_model) then
          .error (.transportConfigError
            ("Operation '" ++ op.name ++ "' with events.subscribe must have 'input' model"))
        else .ok op
    | none => .ok op

/-- EventSpec (framework/spec/events.py): one event of the publish/subscribe
directory; message names the payload model. -/
structure EventSpec where
  name : String := ""
  message : String
  publish : Bool := false
  subscribe : Bool := false

/-- EventsSpec: the root container of all events. -/
structure EventsSpec where
  events : List EventSpec := []

/-- DomainSpec: a named group of operations (one per service/domain document).
The domain-level web config (URL prefix, tags) takes no part in
cross-validation and is left out. -/
structure DomainSpec where
  name : String
  operations : List OperationSpec := []

/-- ConsumeSpec: one consumed service/domain, optionally restricted to named
operations (empty means all). -/
structure ConsumeSpec where
  service : String
  domain : String
  operations : List String := []

/-- ServiceManifest: the consuming service with its consume declarations. -/
structure ServiceManifest where
  service : String := ""
  consumes : List ConsumeSpec := []

/-- extract_base_model (framework/spec/loader.py): unwraps "list[X]" or
"List[X]" to X. -/
def extract_base_model (model_ref : String) : String :=
  if pyStartsWith model_ref "list[" && pyEndsWith model_ref "]" then
    pyDropRight (pyDrop model_ref 5) 1
  else if pyStartsWith model_ref "List[" && pyEndsWith model_ref "]" then
    pyDropRight (pyDrop model_ref 5) 1
  else model_ref

/-- validate_model_references: collects, without stopping, one error message
for every operation input/output model reference that names no known model
(after unwrapping the list wrapper) and for every event message reference that
names no known model, in document and declaration order. -/
def validate_model_references (models : ModelsSpec)
    (domains : List (String × DomainSpec)) (events : EventsSpec) : List String :=
  let known_models := models.get_model_names
  let domain_errors :=
    (domains.map (fun dk =>
      (dk.2.operations.map (fun op =>
        (if strTruthy op.input_model then
          let im := op.input_model.getD ""
          if !(known_models.contains (extract_base_model im)) then
            ["Domain '" ++ dk.1 ++ "', operation '" ++ op.name ++
              "': Unknown input model '" ++ im ++ "'"]
          else []
        else []) ++
        (if strTruthy op.output_model then
          let om := op.output_model.getD ""
          if !(known_models.contains (extract_base_model om)) then
            ["Domain '" ++ dk.1 ++ "', operation '" ++ op.name ++
              "': Unknown output model '" ++ om ++ "'"]
          else []
        else []))).flatten)).flatten
  let event_errors :=
    (events.events.map (fun event =>
      if !event.message.isEmpty && !(known_models.contains event.message) then
        ["Event '" ++ event.name ++ "': Unknown message model '" ++ event.message ++ "'"]
      else [])).flatten
  domain_errors ++ event_errors

/-- validate_consume_references: collects, without stopping, one error for
every consume entry whose service/domain is unknown and, in a known domain,
for every listed operation name the domain does not define. -/
def validate_consume_references (manifests : List (String × ServiceManifest))
    (domains : List (String × DomainSpec)) : List String :=
  (manifests.map (fun mp =>
    (mp.2.consumes.map (fun consume =>
      let domain_key := consume.service ++ "/" ++ consume.domain
      match List.lookup domain_key domains with
      | none =>
          ["Manifest '" ++ mp.1 ++ "': consumes unknown domain '" ++
            consume.service ++ "/" ++ consume.domain ++ "'"]
      | some domain =>
          let domain_op_names := domain.operations.map (fun op => op.name)
          (consume.operations.map (fun op_name =>
            if !(domain_op_names.contains op_name) then
              ["Manifest '" ++ mp.1 ++ "': consumes unknown operation '" ++ op_name ++
                "' in domain '" ++ domain_key ++ "'"]
            else [])).flatten)).flatten)).flatten

/-- The two aggregated failures load_specs can raise after the documents are
loaded: step 4 joins every model-reference error into one SpecValidationError,
step 5 every consume-reference error. The structured lists are kept where the
source formats them into the exception message. -/
inductive LoadError where
  | modelReferenceErrors (errors : List String)
  | consumeReferenceErrors (errors : List String)
deriving DecidableEq

/-- Steps 4 and 5 of load_specs: cross-validate the model references and raise
them all at once when any exist; only otherwise validate the consume
references and raise those all at once. -/
def cross_validate_specs (models : ModelsSpec) (events : EventsSpec)
    (domains : List (String × DomainSpec))
    (manifests : List (String × ServiceManifest)) : Except LoadError Unit :=
  let reference_errors := validate_model_references models domains events
  if !reference_errors.isEmpty then .error (.modelReferenceErrors reference_errors)
  else
    let consume_errors := validate_consume_references manifests domains
    if !consume_errors.isEmpty then .error (.consumeReferenceErrors consume_errors)
    else .ok ()

/-- The error list one run of cross-validation reports. -/
def reportedErrors : Except LoadError Unit → List String
  | .error (.modelReferenceErrors l) => l
  | .error (.consumeReferenceErrors l) => l
  | .ok _ => []

/-- The target path of a controller stub
(services/{service}/src/controllers/{module}.py). -/
def controller_output_path (service_name module_name : String) : String :=
  "services/" ++ service_name ++ "/src/controllers/" ++ module_name ++ ".py"

/-- ControllersGenerator.generate (framework/generators/controllers.py): walks
the routers aggregate (keyed "service/module"; keys are carried pre-split
here), skips every target file that already exists, and otherwise renders a
stub (_generate_controller, through the opaque templating facility passed in
as render) and records the written path. The filesystem is a map from path to
contents. -/
def controllers_generate {R : Type} (render : String → R → String)
    (routers : List ((String × String) × R)) (fs : String → Option String) :
    (String → Option String) × List String :=
  match routers with
  | [] => (fs, [])
  | ((service_name, module_name), router) :: rest =>
      let output_file := controller_output_path service_name module_name
      if (fs output_file).isSome then
        controllers_generate render rest fs
      else
        let fs' := fun p => if p = output_file then some (render module_name router) else fs p
        let result := controllers_generate render rest fs'
        (result.1, output_file :: result.2)

/-- What one attempt of the transport can produce for ServiceClient._request:
a connection error, or a response whose status raise_for_status inspects (400
and above raises HTTPStatusError). -/
inductive AttemptOutcome where
  | connectError
  | response (status : Nat)

/-- The failures ServiceClient._request can surface. -/
inductive RequestFailure where
  | httpStatusError (status : Nat)
  | connectError
  | runtimeError
deriving DecidableEq

/-- The code after the retry loop of ServiceClient._request: raise the last
remembered exception, or RuntimeError("Unexpected retry loop exit"). -/
def request_after_loop : Option RequestFailure → Except RequestFailure Nat × List Nat
  | some e => (.error e, [])
  | none => (.error .runtimeError, [])

/-- The body of "for attempt in range(self.max_retries)" in
ServiceClient._request (shared/http_client.py), recursing over the remaining
attempt indices. A status below 400 returns the response; a 4xx status
re-raises at once; a 5xx status or a connection error is remembered as the
last exception and — when this is not the final attempt — the loop sleeps the
current delay and doubles it. The slept delays are returned alongside the
result (in units in which the doubling of the float delay in the source is
exact). -/
def service_request_go (attempts : Nat → AttemptOutcome) (max_retries : Nat) :
    List Nat → Nat → Option RequestFailure → Except RequestFailure Nat × List Nat
  | [], _, last_exception => request_after_loop last_exception
  | attempt :: rest, delay, _ =>
      match attempts attempt with
      | .response status =>
          if status < 400 then (.ok status, [])
          else if status < 500 then (.error (.httpStatusError status), [])
          else
            if attempt < max_retries - 1 then
              let r := service_request_go attempts max_retries rest (delay * 2)
                (some (.httpStatusError status))
              (r.1, delay :: r.2)
            else
              service_request_go attempts max_retries rest delay
                (some (.httpStatusError status))
      | .connectError =>
          if attempt < max_retries - 1 then
            let r := service_request_go attempts max_retries rest (delay * 2)
              (some .connectError)
            (r.1, delay :: r.2)
          else
            service_request_go attempts max_retries rest delay (some .connectError)

/-- ServiceClient._request: the loop over range(max_retries) starting with the
initial delay and no remembered exception (source defaults: max_retries=3,
initial_delay=1). -/
def ServiceClient_request (max_retries initial_delay : Nat)
    (attempts : Nat → AttemptOutcome) : Except RequestFailure Nat × List Nat :=
  service_request_go attempts max_retries (List.range max_retries) initial_delay none

/-- What one attempt of _sync_user_with_backend can observe from
client.create_user: success, an HTTPStatusError with a status, a connection
error, or another httpx.HTTPError. -/
inductive SyncAttempt where
  | created
  | statusError (status : Nat)
  | connectErr
  | otherHttpError

/-- The body of "for attempt in range(max_retries)" in _sync_user_with_backend
(services/tg_bot/src/main.py), recursing over the remaining attempt indices.
Success returns True (user created); a 409 returns the distinguished
already-exists outcome False; another 4xx returns None at once; a 5xx or a
connection error falls through to the backoff sleep (doubling delay, skipped
on the final attempt); another HTTP error returns None only on the last
attempt; exhaustion returns None. The slept delays are returned alongside. -/
def sync_user_go (attempts : Nat → SyncAttempt) (max_retries : Nat) :
    List Nat → Nat → Option Bool × List Nat
  | [], _ => (none, [])
  | attempt :: rest, delay =>
      match attempts attempt with
      | .created => (some true, [])
      | .statusError status =>
          if status = 409 then (some false, [])
          else if 400 ≤ status ∧ status < 500 then (none, [])
          else
            if attempt < max_retries - 1 then
              let r := sync_user_go attempts max_retries rest (delay * 2)
              (r.1, delay :: r.2)
            else sync_user_go attempts max_retries rest delay
      | .connectErr =>
          if attempt < max_retries - 1 then
            let r := sync_user_go attempts max_retries rest (delay * 2)
            (r.1, delay :: r.2)
          else sync_user_go attempts max_retries rest delay
      | .otherHttpError =>
          if attempt = max_retries - 1 then (none, [])
          else
            if attempt < max_retries - 1 then
              let r := sync_user_go attempts max_retries rest (delay * 2)
              (r.1, delay :: r.2)
            else sync_user_go attempts max_retries rest delay

/-- _sync_user_with_backend: the loop over range(max_retries) from the initial
delay (source defaults: max_retries=3, initial_delay=1). -/
def sync_user_with_backend (max_retries initial_delay : Nat)
    (attempts : Nat → SyncAttempt) : Option Bool × List Nat :=
  sync_user_go attempts max_retries (List.range max_retries) initial_delay

/-- An attempt outcome the client retry loop retries on: a connection error or
a 5xx response. -/
def Retryable (o : AttemptOutcome) : Prop :=
  match o with
  | .connectError => True
  | .response s => 500 ≤ s

/-- A model with a readonly field and no declared variants. -/
def wReadonlyModel : ModelSpec :=
  { fields := [("id", { type_spec := .primitive "int", readonly := true }),
               ("telegram_id", { type_spec := .primitive "int" })],
    variants := [] }

/-- A C2 witness model: a Create variant that excludes one field explicitly
while a readonly field is auto-excluded. -/
def wVariantModel : ModelSpec :=
  { fields := [("id", { type_spec := .primitive "int", readonly := true }),
               ("secret", { type_spec := .primitive "string" }),
               ("name", { type_spec := .primitive "string" })],
    variants := [("Create", { exclude := ["secret"] })] }

/-- The Create variant of the C2 witness model. -/
def wCreateVariant : VariantSpec := { exclude := ["secret"] }

/-- A globally optional field for the C1 witness. -/
def wOptNickField : FieldSpec := { type_spec := .primitive "string", optional := true }

/-- A model whose Read variant does not mention the optional field in its own
optional set. -/
def wOptModel : ModelSpec :=
  { fields := [("nickname", wOptNickField), ("id", { type_spec := .primitive "int" })],
    variants := [("Read", {})] }

/-- The schema the embedding emits for ProfileRead. -/
def wOptSchema : ModelSchema :=
  { title := "ProfileRead",
    properties := [("nickname", .jobj [("type", .jstr "string"), ("nullable", .jbool true)]),
                   ("id", .jobj [("type", .jstr "integer")])],
    required := ["id"] }

/-- The scenario model User{id:int readonly, telegram_id:int, is_admin:bool
default=false} with the empty variants Create and Read. -/
def userModel : ModelSpec :=
  { fields :=
      [("id", { type_spec := .primitive "int", readonly := true }),
       ("telegram_id", { type_spec := .primitive "int" }),
       ("is_admin", { type_spec := .primitive "bool", default := some (.jbool false) })],
    variants := [("Create", {}), ("Read", {})] }

/-- The scenario operation process_batch with only a subscribe channel. -/
def processBatchOp : OperationSpec :=
  { name := "process_batch", events := some { subscribe := some "batch.requested" } }

/-- The C5 witness router table: one backend/users controller. -/
def wRouters : List ((String × String) × Unit) := [(("backend", "users"), ())]

/-- The C5 witness filesystem: the target controller file already exists with
hand-edited contents. -/
def wFs : String → Option String :=
  fun p => if p = "services/backend/src/controllers/users.py" then some "edited by hand"
           else none

/-- The C6 witness transport behavior: one connection failure, one 503, then a
200. -/
def wAttempts : Nat → AttemptOutcome :=
  fun k => if k = 0 then .connectError else if k = 1 then .response 503 else .response 200

/-- The type-system invariants as the spec states them, as one recursive
predicate over the tree: every Enum carries at least 2 unique values, each a
valid identifier (no leading underscore) with a default drawn from the
values, and every Dict key is a Primitive. -/
def typeInvariantsHold : TypeSpec → Bool
  | .primitive _ => true
  | .list of => typeInvariantsHold of
  | .optional of => typeInvariantsHold of
  | .dict k v => k.isPrimitive && typeInvariantsHold k && typeInvariantsHold v
  | .enum values default =>
      decide (2 ≤ values.length) && decide (values.dedup = values) &&
      values.all (fun v => isPyIdentifier v && !(pyStartsWith v "_")) &&
      (match default with
       | some d => values.contains d
       | none => true)

/-- The C4 counterexample models: a single model User. -/
def cModels : ModelsSpec := ⟨[("User", { fields := [("id", { type_spec := .primitive "int" })] })]⟩

/-- The C4 counterexample operation referencing the unknown model Ghost. -/
def cGhostOp : OperationSpec :=
  { name := "create_ghost", input_model := some "Ghost", rest := some { method := "POST" } }

/-- The C4 counterexample domains document. -/
def cDomains : List (String × DomainSpec) :=
  [("backend/users", { name := "users", operations := [cGhostOp] })]

/-- The C4 counterexample consume entry referencing the unknown domain
backend/billing. -/
def cBillingConsume : ConsumeSpec := { service := "backend", domain := "billing" }

/-- The C4 counterexample manifests document. -/
def cManifests : List (String × ServiceManifest) :=
  [("tg_bot", { service := "tg_bot", consumes := [cBillingConsume] })]

/-- In an association list with pairwise distinct keys, a key determines its
value. -/
theorem assoc_value_eq_of_nodup_keys {α β : Type} [DecidableEq α] {l : List (α × β)}
    (hnd : (l.map Prod.fst).Nodup) {a : α} {b b' : β}
    (h1 : (a, b) ∈ l) (h2 : (a, b') ∈ l) : b = b' := by
  induction l with
  | nil => cases h1
  | cons hd tl ih =>
      simp only [List.map_cons, List.nodup_cons] at hnd
      rcases List.mem_cons.mp h1 with h1 | h1 <;> rcases List.mem_cons.mp h2 with h2 | h2
      · exact congrArg Prod.snd (h1.trans h2.symm)
      · exfalso
        have hm : a ∈ tl.map Prod.fst := List.mem_map_of_mem Prod.fst h2
        have ha : hd.1 = a := by rw [← h1]
        exact hnd.1 (ha ▸ hm)
      · exfalso
        have hm : a ∈ tl.map Prod.fst := List.mem_map_of_mem Prod.fst h1
        have ha : hd.1 = a := by rw [← h2]
        exact hnd.1 (ha ▸ hm)
      · exact ih hnd.2 h1 h2

/-- The fields of any view are a sublist of the model's fields. -/
theorem get_variant_fields_sublist (m : ModelSpec) (v : String) :
    (m.get_variant_fields v).Sublist m.fields := by
  unfold ModelSpec.get_variant_fields
  cases List.lookup v m.variants with
  | none => exact List.Sublist.refl _
  | some variant => exact List.filter_sublist _

/-- C10: get_variant_fields with an undeclared variant name returns all of the
model's fields unchanged (the base view); in particular the readonly
auto-exclusion does not fire for the names Create or Update when no variant of
that name is declared. -/
theorem get_variant_fields_undeclared (m : ModelSpec) (variant_name : String)
    (h : List.lookup variant_name m.variants = none) :
    m.get_variant_fields variant_name = m.fields := by
  simp [ModelSpec.get_variant_fields, h]

/-- C10 witness: passing the name Create to a model that declares no Create
variant returns every field, the readonly one included. -/
theorem get_variant_fields_undeclared_witness :
    List.lookup "Create" wReadonlyModel.variants = none ∧
    wReadonlyModel.get_variant_fields "Create" = wReadonlyModel.fields :=
  ⟨rfl, get_variant_fields_undeclared wReadonlyModel "Create" rfl⟩

/-- C2: for a declared variant V, get_variant_fields keeps exactly the model's
fields outside V.exclude that are not readonly fields auto-excluded by a
Create/Update variant name, preserves declaration order (the view is a sublist
of the field list), and calling it twice yields identical results. -/
theorem get_variant_fields_law (m : ModelSpec) (variant_name : String)
    (variant : VariantSpec)
    (h : List.lookup variant_name m.variants = some variant) :
    (∀ name f, (name, f) ∈ m.get_variant_fields variant_name ↔
      ((name, f) ∈ m.fields ∧ ¬ name ∈ variant.exclude ∧
        ¬ (f.readonly = true ∧ (variant_name = "Create" ∨ variant_name = "Update")))) ∧
    (m.get_variant_fields variant_name).Sublist m.fields ∧
    m.get_variant_fields variant_name = m.get_variant_fields variant_name := by
  refine ⟨?_, get_variant_fields_sublist m variant_name, rfl⟩
  intro name f
  simp only [ModelSpec.get_variant_fields, h, List.mem_filter, Bool.and_eq_true,
    Bool.not_eq_true', List.contains_eq_any_beq, List.any_eq_false, beq_iff_eq,
    Bool.and_eq_false_iff, Bool.or_eq_false_iff, beq_eq_false_iff_ne]
  constructor
  · rintro ⟨hm, hex, hro⟩
    refine ⟨hm, ?_, ?_⟩
    · intro hcon; exact (hex _ hcon) rfl
    · rintro ⟨hr, hcu⟩
      rcases hro with hro | ⟨h1, h2⟩
      · exact absurd hr (by simp [hro])
      · rcases hcu with hcu | hcu <;> [exact h1 hcu; exact h2 hcu]
  · rintro ⟨hm, hex, hro⟩
    refine ⟨hm, fun x hx => ?_, ?_⟩
    · intro hxe; exact hex (hxe ▸ hx)
    · by_cases hr : f.readonly = true
      · right
        exact ⟨fun hc => hro ⟨hr, Or.inl hc⟩, fun hu => hro ⟨hr, Or.inr hu⟩⟩
      · left; simp only [Bool.not_eq_true] at hr; exact hr

/-- C2 witness: the variant field law instantiated on a concrete model. -/
theorem get_variant_fields_law_witness :
    List.lookup "Create" wVariantModel.variants = some wCreateVariant ∧
    ((∀ name f, (name, f) ∈ wVariantModel.get_variant_fields "Create" ↔
      ((name, f) ∈ wVariantModel.fields ∧ ¬ name ∈ wCreateVariant.exclude ∧
        ¬ (f.readonly = true ∧ ("Create" = "Create" ∨ "Create" = "Update")))) ∧
      (wVariantModel.get_variant_fields "Create").Sublist wVariantModel.fields ∧
      wVariantModel.get_variant_fields "Create" = wVariantModel.get_variant_fields "Create") :=
  ⟨rfl, get_variant_fields_law wVariantModel "Create" wCreateVariant rfl⟩

/-- Every field name in the required list of the schema-field loop belongs to a
field of the rendered view whose FieldSpec is not optional. -/
theorem mem_required_buildSchemaFields :
    ∀ {fields : List (String × FieldSpec)} {optional_fields : List String}
      {props : JObj} {req : List String} {n : String},
      buildSchemaFields fields optional_fields = some (props, req) →
      n ∈ req → ∃ f, (n, f) ∈ fields ∧ f.optional = false := by
  intro fields
  induction fields with
  | nil =>
      intro opt props req n h hn
      simp only [buildSchemaFields, Option.some.injEq, Prod.mk.injEq] at h
      rw [← h.2] at hn
      cases hn
  | cons hd tl ih =>
      intro opt props req n h hn
      obtain ⟨fn, f⟩ := hd
      unfold buildSchemaFields at h
      cases hf : FieldSpec.to_json_schema f with
      | none => rw [hf] at h; cases h
      | some fs =>
        cases hb : buildSchemaFields tl opt with
        | none => rw [hf, hb] at h; cases h
        | some pr =>
          obtain ⟨p', r'⟩ := pr
          rw [hf, hb] at h
          simp only [Option.some.injEq, Prod.mk.injEq] at h
          rw [← h.2] at hn
          by_cases hc : (!opt.contains fn && !f.optional && !f.default.isSome) = true
          · rw [if_pos hc] at hn
            rcases List.mem_cons.mp hn with hn | hn
            · subst hn
              refine ⟨f, List.mem_cons_self _ _, ?_⟩
              simp only [Bool.and_eq_true, Bool.not_eq_true'] at hc
              exact hc.1.2
            · obtain ⟨f', hm, ho⟩ := ih hb hn
              exact ⟨f', List.mem_cons_of_mem _ hm, ho⟩
          · rw [if_neg hc] at hn
            obtain ⟨f', hm, ho⟩ := ih hb hn
            exact ⟨f', List.mem_cons_of_mem _ hm, ho⟩

/-- C1: a field whose FieldSpec has optional: true is absent from the required
list of the structural schema emitted for any view of the model — the base
model and every variant alike, whether or not the variant's own optional set
mentions the field. -/
theorem optional_cascade (model_name : String) (m : ModelSpec)
    (variant_name : Option String) (n : String) (f : FieldSpec) (r : ModelSchema)
    (hnd : (m.fields.map Prod.fst).Nodup)
    (hmem : (n, f) ∈ m.fields) (hopt : f.optional = true)
    (hr : model_to_schema model_name m variant_name = some r) :
    ¬ n ∈ r.required := by
  intro hn
  have key : ∃ fl opt props req, buildSchemaFields fl opt = some (props, req) ∧
      r.required = req ∧ fl.Sublist m.fields := by
    unfold model_to_schema at hr
    by_cases ht : strTruthy variant_name = true
    · rw [if_pos ht] at hr
      split at hr
      · cases hr
      · rename_i variant hl
        split at hr
        · cases hr
        · rename_i props req hb
          simp only [Option.some.injEq] at hr
          exact ⟨_, _, props, req, hb, by rw [← hr], get_variant_fields_sublist m _⟩
    · rw [if_neg ht] at hr
      split at hr
      · cases hr
      · rename_i props req hb
        simp only [Option.some.injEq] at hr
        exact ⟨m.fields, [], props, req, hb, by rw [← hr], List.Sublist.refl _⟩
  obtain ⟨fl, opt, props, req, hb, hreq, hsub⟩ := key
  rw [hreq] at hn
  obtain ⟨f', hf', hopt'⟩ := mem_required_buildSchemaFields hb hn
  have hmem' : (n, f') ∈ m.fields := hsub.subset hf'
  have hff : f = f' := assoc_value_eq_of_nodup_keys hnd hmem hmem'
  rw [← hff, hopt] at hopt'
  cases hopt'

/-- C1 witness: the optional cascade at a concrete model and variant. -/
theorem optional_cascade_witness :
    (wOptModel.fields.map Prod.fst).Nodup ∧
    ("nickname", wOptNickField) ∈ wOptModel.fields ∧
    wOptNickField.optional = true ∧
    model_to_schema "Profile" wOptModel (some "Read") = some wOptSchema ∧
    ¬ "nickname" ∈ wOptSchema.required :=
  ⟨by decide, List.mem_cons_self _ _, rfl, rfl,
    optional_cascade "Profile" wOptModel (some "Read") "nickname" wOptNickField wOptSchema
      (by decide) (List.mem_cons_self _ _) rfl rfl⟩

/-- C7: the emitted UserCreate schema has exactly the properties telegram_id
and is_admin with required exactly telegram_id, and the emitted UserRead
schema has exactly the properties id, telegram_id and is_admin with required
exactly id and telegram_id. -/
theorem user_scenario_schemas :
    ((model_to_schema "User" userModel (some "Create")).map
        (fun r => (r.title, r.properties.map Prod.fst, r.required))
      = some ("UserCreate", ["telegram_id", "is_admin"], ["telegram_id"])) ∧
    ((model_to_schema "User" userModel (some "Read")).map
        (fun r => (r.title, r.properties.map Prod.fst, r.required))
      = some ("UserRead", ["id", "telegram_id", "is_admin"], ["id", "telegram_id"])) :=
  ⟨rfl, rfl⟩

/-- C3: an operation whose events transport sets a subscribe channel while its
input_model is absent is rejected by the load-time operation validation with a
transport-configuration error, before any generator runs. -/
theorem subscribe_requires_input_model (op : OperationSpec) (e : EventsConfig)
    (hev : op.events = some e) (hsub : strTruthy e.subscribe = true)
    (hin : op.input_model = none) :
    ∃ msg, validateOperationSpec op = .error (.transportConfigError msg) := by
  refine ⟨"Operation '" ++ op.name ++ "' with events.subscribe must have 'input' model", ?_⟩
  unfold validateOperationSpec
  rw [hev, hin]
  simp only [Option.isSome_some, Bool.not_true, Bool.and_false, Bool.false_eq_true, if_false]
  rw [hsub]
  simp [strTruthy]

/-- C3 witness: process_batch{bus:{subscribe: "batch.requested"}} with no
input_model fails with a transport-configuration error. -/
theorem subscribe_requires_input_model_witness :
    processBatchOp.events = some { subscribe := some "batch.requested" } ∧
    strTruthy (some "batch.requested") = true ∧
    processBatchOp.input_model = none ∧
    ∃ msg, validateOperationSpec processBatchOp = .error (.transportConfigError msg) :=
  ⟨rfl, rfl, rfl,
    subscribe_requires_input_model processBatchOp { subscribe := some "batch.requested" }
      rfl rfl rfl⟩

/-- C5: a handler/controller target file that already exists is left unchanged
by the generator and its path is not among the returned written paths; a stub
is written only for target files that do not exist. -/
theorem controllers_stub_preservation {R : Type} (render : String → R → String)
    (routers : List ((String × String) × R)) (fs : String → Option String) :
    (∀ path c, fs path = some c →
      (controllers_generate render routers fs).1 path = some c ∧
      ¬ path ∈ (controllers_generate render routers fs).2) ∧
    (∀ p, p ∈ (controllers_generate render routers fs).2 → fs p = none) := by
  induction routers generalizing fs with
  | nil => simp [controllers_generate]
  | cons hd tl ih =>
      obtain ⟨⟨svc, mod⟩, router⟩ := hd
      by_cases he : (fs (controller_output_path svc mod)).isSome = true
      · have hred : controllers_generate render (((svc, mod), router) :: tl) fs =
            controllers_generate render tl fs := by
          simp only [controllers_generate, he, if_true]
        rw [hred]
        exact ih fs
      · have hnone : fs (controller_output_path svc mod) = none := by
          cases hfs : fs (controller_output_path svc mod) with
          | none => rfl
          | some c => rw [hfs] at he; simp at he
        have hred : controllers_generate render (((svc, mod), router) :: tl) fs =
            ((controllers_generate render tl
                (fun p => if p = controller_output_path svc mod
                  then some (render mod router) else fs p)).1,
              controller_output_path svc mod ::
                (controllers_generate render tl
                  (fun p => if p = controller_output_path svc mod
                    then some (render mod router) else fs p)).2) := by
          simp only [controllers_generate, hnone, Option.isSome_none, Bool.false_eq_true,
            if_false]
        constructor
        · intro path c hc
          have hne : path ≠ controller_output_path svc mod := by
            intro hpe; rw [hpe, hnone] at hc; cases hc
          have hc' : (fun p => if p = controller_output_path svc mod
              then some (render mod router) else fs p) path = some c := by
            simp only [if_neg hne]; exact hc
          rw [hred]
          obtain ⟨h1, h2⟩ := (ih (fun p => if p = controller_output_path svc mod
            then some (render mod router) else fs p)).1 path c hc'
          refine ⟨h1, ?_⟩
          simp only [List.mem_cons, not_or]
          exact ⟨hne, h2⟩
        · intro p hp
          rw [hred] at hp
          rcases List.mem_cons.mp hp with hp | hp
          · rw [hp]; exact hnone
          · have hfp := (ih (fun p => if p = controller_output_path svc mod
              then some (render mod router) else fs p)).2 p hp
            by_cases hpe : p = controller_output_path svc mod
            · rw [hpe]; exact hnone
            · simpa only [if_neg hpe] using hfp

/-- C5 witness: an existing hand-edited controller survives a generator run
untouched and unreported. -/
theorem controllers_stub_preservation_witness :
    wFs "services/backend/src/controllers/users.py" = some "edited by hand" ∧
    (controllers_generate (fun _ _ => "stub") wRouters wFs).1
        "services/backend/src/controllers/users.py" = some "edited by hand" ∧
    ¬ "services/backend/src/controllers/users.py" ∈
        (controllers_generate (fun _ _ => "stub") wRouters wFs).2 :=
  ⟨rfl,
    ((controllers_stub_preservation (fun _ _ => "stub") wRouters wFs).1
      "services/backend/src/controllers/users.py" "edited by hand" rfl).1,
    ((controllers_stub_preservation (fun _ _ => "stub") wRouters wFs).1
      "services/backend/src/controllers/users.py" "edited by hand" rfl).2⟩

/-- Running the request loop over the remaining attempt indices against j
retryable outcomes followed by a response below 500: the response is returned
(below 400) or raised at once (4xx), after exactly j backoff sleeps whose
durations double from the current delay. -/
theorem service_request_go_prefix (attempts : Nat → AttemptOutcome) (mr : Nat) :
    ∀ (j k a d : Nat) (last : Option RequestFailure) (s : Nat),
      j < k → a + k = mr →
      (∀ i, i < j → Retryable (attempts (a + i))) →
      attempts (a + j) = .response s → s < 500 →
      service_request_go attempts mr (List.range' a k) d last =
        ((if s < 400 then .ok s else .error (.httpStatusError s)),
          (List.range j).map (fun i => d * 2 ^ i)) := by
  intro j
  induction j with
  | zero =>
      intro k a d last s hjk hak hpre hres hs5
      obtain ⟨k', rfl⟩ : ∃ k', k = k' + 1 := ⟨k - 1, by omega⟩
      rw [Nat.add_zero] at hres
      show service_request_go attempts mr (a :: List.range' (a + 1) k') d last = _
      by_cases h4 : s < 400
      · simp only [service_request_go, hres, if_pos h4]
        rfl
      · simp only [service_request_go, hres, if_neg h4, if_pos hs5]
        rfl
  | succ j ih =>
      intro k a d last s hjk hak hpre hres hs5
      obtain ⟨k', rfl⟩ : ∃ k', k = k' + 1 := ⟨k - 1, by omega⟩
      have hlt1 : a < mr - 1 := by omega
      have hpre' : ∀ i, i < j → Retryable (attempts (a + 1 + i)) := by
        intro i hi
        have hp := hpre (i + 1) (by omega)
        have heq : a + (i + 1) = a + 1 + i := by omega
        rwa [heq] at hp
      have hres' : attempts (a + 1 + j) = .response s := by
        have heq : a + (j + 1) = a + 1 + j := by omega
        rwa [heq] at hres
      have hmap : (List.range (j + 1)).map (fun i => d * 2 ^ i) =
          d :: (List.range j).map (fun i => d * 2 * 2 ^ i) := by
        rw [List.range_succ_eq_map, List.map_cons, List.map_map]
        simp only [pow_zero, mul_one]
        congr 1
        have hfg : ((fun i => d * 2 ^ i) ∘ Nat.succ) = (fun i => d * 2 * 2 ^ i) := by
          funext i
          simp only [Function.comp_apply, pow_succ]
          ring
        rw [hfg]
      have hra := hpre 0 (Nat.succ_pos j)
      rw [Nat.add_zero] at hra
      show service_request_go attempts mr (a :: List.range' (a + 1) k') d last = _
      cases hc : attempts a with
      | connectError =>
          simp only [service_request_go, hc, if_pos hlt1]
          rw [ih k' (a + 1) (d * 2) (some .connectError) s (by omega) (by omega)
            hpre' hres' hs5, hmap]
      | response st =>
          have h5 : 500 ≤ st := by
            rw [hc] at hra
            simpa [Retryable] using hra
          simp only [service_request_go, hc, if_neg (by omega : ¬ st < 400),
            if_neg (by omega : ¬ st < 500), if_pos hlt1]
          rw [ih k' (a + 1) (d * 2) (some (.httpStatusError st)) s (by omega) (by omega)
            hpre' hres' hs5, hmap]

/-- C6 counterexample: the generated client's request routine gives a 409
response no distinguished treatment — it raises the same generic
HTTPStatusError failure a 400 gets, immediately and with no retry; no
conflict outcome exists in its result type. -/
theorem request_conflict_counterexample :
    ServiceClient_request 3 1 (fun _ => .response 409) =
      (.error (.httpStatusError 409), []) ∧
    ServiceClient_request 3 1 (fun _ => .response 400) =
      (.error (.httpStatusError 400), []) :=
  ⟨rfl, rfl⟩

/-- C6 amended: the client's request routine retries on connection failures
and 5xx responses with the slept delays doubling from the initial delay, and
fails immediately on any 4xx — 409 included — with the generic status-error
failure; the distinguished conflict outcome lives at the call site, where
_sync_user_with_backend maps a 409 to the distinct result False with no
retry. -/
theorem client_retry_policy :
    (∀ (attempts : Nat → AttemptOutcome) (mr init j s : Nat),
      (∀ i, i < j → Retryable (attempts i)) →
      attempts j = .response s → s < 400 → j < mr →
      ServiceClient_request mr init attempts =
        (.ok s, (List.range j).map (fun i => init * 2 ^ i))) ∧
    (∀ (attempts : Nat → AttemptOutcome) (mr init j s : Nat),
      (∀ i, i < j → Retryable (attempts i)) →
      attempts j = .response s → 400 ≤ s → s < 500 → j < mr →
      ServiceClient_request mr init attempts =
        (.error (.httpStatusError s), (List.range j).map (fun i => init * 2 ^ i))) ∧
    (∀ (attempts : Nat → SyncAttempt) (mr init : Nat),
      0 < mr → attempts 0 = .statusError 409 →
      sync_user_with_backend mr init attempts = (some false, [])) := by
  refine ⟨?_, ?_, ?_⟩
  · intro attempts mr init j s hpre hres h4 hj
    have h := service_request_go_prefix attempts mr j mr 0 init none s hj (by omega)
      (by intro i hi; simpa using hpre i hi) (by simpa using hres) (by omega)
    rw [ServiceClient_request, List.range_eq_range', h, if_pos h4]
  · intro attempts mr init j s hpre hres h4 h5 hj
    have h := service_request_go_prefix attempts mr j mr 0 init none s hj (by omega)
      (by intro i hi; simpa using hpre i hi) (by simpa using hres) h5
    rw [ServiceClient_request, List.range_eq_range', h, if_neg (by omega)]
  · intro attempts mr init h0 hatt
    obtain ⟨m, rfl⟩ : ∃ m, mr = m + 1 := ⟨mr - 1, by omega⟩
    rw [sync_user_with_backend, List.range_eq_range']
    show sync_user_go attempts (m + 1) (0 :: List.range' 1 m) init = _
    simp [sync_user_go, hatt]

/-- C6 witness: the amended retry policy at concrete runs — a success after a
connection failure and a 503 with delays 1 then 2, a 404 failing at once with
no sleep, and the call site mapping a 409 to the distinct False outcome. -/
theorem client_retry_policy_witness :
    ServiceClient_request 3 1 wAttempts = (.ok 200, [1, 2]) ∧
    ServiceClient_request 3 1 (fun _ => .response 404) =
      (.error (.httpStatusError 404), []) ∧
    sync_user_with_backend 3 1 (fun _ => .statusError 409) = (some false, []) := by
  refine ⟨?_, ?_, ?_⟩
  · have h := client_retry_policy.1 wAttempts 3 1 2 200
      (by intro i hi; interval_cases i <;> simp [Retryable, wAttempts]) rfl
      (by omega) (by omega)
    have hm : (List.range 2).map (fun i => 1 * 2 ^ i) = [1, 2] := by decide
    rw [h, hm]
  · have h := client_retry_policy.2.1 (fun _ => .response 404) 3 1 0 404
      (by intro i hi; omega) rfl (by omega) (by omega) (by omega)
    have hm : (List.range 0).map (fun i => 1 * 2 ^ i) = ([] : List Nat) := by decide
    rw [h, hm]
  · exact client_retry_policy.2.2 (fun _ => .statusError 409) 3 1 (by omega) rfl

/-- C8: every TypeSpec the grammar accepts renders without failure through
both type_spec_to_python and type_spec_to_json_schema, and repeated calls on
the same value return equal results. -/
theorem type_renderers_total (t : TypeSpec) (h : validateTypeSpec t = .ok ()) :
    (∃ s, type_spec_to_python t = some s) ∧
    (∃ j, type_spec_to_json_schema t = some j) ∧
    type_spec_to_python t = type_spec_to_python t ∧
    type_spec_to_json_schema t = type_spec_to_json_schema t := by
  induction t with
  | primitive p =>
      have hp : PRIMITIVE_TYPES.contains p = true := by
        by_contra hc
        simp only [validateTypeSpec] at h
        rw [if_neg hc] at h
        cases h
      have hmem : p ∈ PRIMITIVE_TYPES := List.elem_iff.mp hp
      fin_cases hmem <;> exact ⟨⟨_, rfl⟩, ⟨_, rfl⟩, rfl, rfl⟩
  | list of ih =>
      obtain ⟨⟨s, hs⟩, ⟨j, hj⟩, _, _⟩ := ih h
      refine ⟨⟨"list[" ++ s ++ "]", ?_⟩,
        ⟨[("type", .jstr "array"), ("items", .jobj j)], ?_⟩, rfl, rfl⟩
      · simp [type_spec_to_python, hs]
      · simp [type_spec_to_json_schema, hj]
  | optional of ih =>
      obtain ⟨⟨s, hs⟩, ⟨j, hj⟩, _, _⟩ := ih h
      refine ⟨⟨s ++ " | None", ?_⟩, ⟨jobjSet j "nullable" (.jbool true), ?_⟩, rfl, rfl⟩
      · simp [type_spec_to_python, hs]
      · simp [type_spec_to_json_schema, hj]
  | dict k v ihk ihv =>
      simp only [validateTypeSpec] at h
      cases hvk : validateTypeSpec k with
      | error e => rw [hvk] at h; cases h
      | ok u =>
          cases u
          rw [hvk] at h
          cases hvv : validateTypeSpec v with
          | error e => rw [hvv] at h; cases h
          | ok u =>
              cases u
              rw [hvv] at h
              obtain ⟨⟨sk, hsk⟩, ⟨jk, hjk⟩, _, _⟩ := ihk hvk
              obtain ⟨⟨sv, hsv⟩, ⟨jv, hjv⟩, _, _⟩ := ihv hvv
              refine ⟨⟨"dict[" ++ sk ++ ", " ++ sv ++ "]", ?_⟩,
                ⟨[("type", .jstr "object"), ("additionalProperties", .jobj jv)], ?_⟩,
                rfl, rfl⟩
              · simp [type_spec_to_python, hsk, hsv]
              · simp [type_spec_to_json_schema, hjv]
  | enum values default =>
      refine ⟨⟨"str", rfl⟩, ⟨?w, ?_⟩, rfl, rfl⟩
      case w => exact match default with
        | some d => jobjSet [("type", .jstr "string"), ("enum", .jarr (values.map .jstr))]
            "default" (.jstr d)
        | none => [("type", .jstr "string"), ("enum", .jarr (values.map .jstr))]
      cases default <;> rfl

/-- C8 witness: the renderers at one concrete grammar-accepted value. -/
theorem type_renderers_total_witness :
    validateTypeSpec (.dict (.primitive "string") (.list (.primitive "int"))) = .ok () ∧
    ((∃ s, type_spec_to_python (.dict (.primitive "string") (.list (.primitive "int"))) =
        some s) ∧
      (∃ j, type_spec_to_json_schema (.dict (.primitive "string")
        (.list (.primitive "int"))) = some j) ∧
      type_spec_to_python (.dict (.primitive "string") (.list (.primitive "int"))) =
        type_spec_to_python (.dict (.primitive "string") (.list (.primitive "int"))) ∧
      type_spec_to_json_schema (.dict (.primitive "string") (.list (.primitive "int"))) =
        type_spec_to_json_schema (.dict (.primitive "string") (.list (.primitive "int")))) :=
  ⟨rfl, type_renderers_total (.dict (.primitive "string") (.list (.primitive "int"))) rfl⟩

/-- C9: parse/construction-time validation of a TypeSpec succeeds only when
the type-system invariants hold, and fails with an error whenever they are
violated. -/
theorem type_invariants_enforced :
    (∀ t, validateTypeSpec t = .ok () → typeInvariantsHold t = true) ∧
    (∀ t, typeInvariantsHold t = false → ∃ msg, validateTypeSpec t = .error msg) := by
  have main : ∀ t, validateTypeSpec t = .ok () → typeInvariantsHold t = true := by
    intro t
    induction t with
    | primitive p => intro _; rfl
    | list of ih => exact fun h => ih h
    | optional of ih => exact fun h => ih h
    | dict k v ihk ihv =>
        intro h
        simp only [validateTypeSpec] at h
        cases hvk : validateTypeSpec k with
        | error e => rw [hvk] at h; cases h
        | ok u =>
            cases u
            rw [hvk] at h
            cases hvv : validateTypeSpec v with
            | error e => rw [hvv] at h; cases h
            | ok u =>
                cases u
                rw [hvv] at h
                by_cases hkp : k.isPrimitive = true
                · simp [typeInvariantsHold, hkp, ihk hvk, ihv hvv]
                · rw [if_neg hkp] at h; cases h
    | enum values default =>
        intro h
        simp only [validateTypeSpec] at h
        cases hvv : validate_values values with
        | error e => rw [hvv] at h; cases h
        | ok w =>
            rw [hvv] at h
            unfold validate_values at hvv
            by_cases h1 : values.length < 2
            · rw [if_pos h1] at hvv; cases hvv
            rw [if_neg h1] at hvv
            by_cases h2 : values.length ≠ values.dedup.length
            · rw [if_pos h2] at hvv; cases hvv
            rw [if_neg h2] at hvv
            cases hfind : values.find? (fun val => !(isPyIdentifier val) || pyStartsWith val "_") with
            | some bad => rw [hfind] at hvv; cases hvv
            | none =>
                have hdedup : values.dedup = values := by
                  push_neg at h2
                  exact (List.dedup_sublist values).eq_of_length h2.symm
                have hall : ∀ x ∈ values,
                    (isPyIdentifier x && !(pyStartsWith x "_")) = true := by
                  intro x hx
                  have hnp := List.find?_eq_none.mp hfind x hx
                  simp only [Bool.or_eq_true, Bool.not_eq_true', not_or] at hnp
                  simp [hnp.1, hnp.2]
                simp only [typeInvariantsHold, Bool.and_eq_true, decide_eq_true_eq]
                refine ⟨⟨⟨by omega, by rw [hdedup]⟩, List.all_eq_true.mpr hall⟩, ?_⟩
                have h' : validate_default_in_values values default = Except.ok () := h
                cases hdef : default with
                | none => rfl
                | some d =>
                    show values.contains d = true
                    unfold validate_default_in_values at h'
                    rw [hdef] at h'
                    have h'' : (if d ∈ values then Except.ok () else
                        Except.error ("Default '" ++ d ++ "' is not in enum values")) =
                        (Except.ok () : Except String Unit) := h'
                    by_cases hd : d ∈ values
                    · exact List.elem_iff.mpr hd
                    · rw [if_neg hd] at h''; cases h''
  refine ⟨main, ?_⟩
  intro t hf
  cases hv : validateTypeSpec t with
  | error msg => exact ⟨msg, rfl⟩
  | ok u =>
      cases u
      rw [main t hv] at hf
      cases hf

/-- C9 witness: a well-formed enum passes and carries the invariants; an
ill-formed dict (non-primitive key) is rejected with an error. -/
theorem type_invariants_enforced_witness :
    typeInvariantsHold (.enum ["active", "disabled"] (some "active")) = true ∧
    (∃ msg, validateTypeSpec (.dict (.list (.primitive "int")) (.primitive "int")) =
      .error msg) :=
  ⟨type_invariants_enforced.1 (.enum ["active", "disabled"] (some "active")) rfl,
   type_invariants_enforced.2 (.dict (.list (.primitive "int")) (.primitive "int")) rfl⟩

/-- C4 amended: each cross-validation phase aggregates every error it finds —
all model/event reference errors are reported together in one failure, and all
consume-reference errors likewise — but model/event reference errors preempt
the consume phase: consume errors are only reported when the first phase found
none. Each reference-error kind is complete within its phase. -/
theorem cross_validation_aggregation :
    (∀ (models : ModelsSpec) (events : EventsSpec)
        (domains : List (String × DomainSpec))
        (manifests : List (String × ServiceManifest)),
      (validate_model_references models domains events ≠ [] →
        cross_validate_specs models events domains manifests =
          .error (.modelReferenceErrors (validate_model_references models domains events))) ∧
      (validate_model_references models domains events = [] →
        validate_consume_references manifests domains ≠ [] →
        cross_validate_specs models events domains manifests =
          .error (.consumeReferenceErrors (validate_consume_references manifests domains)))) ∧
    (∀ (models : ModelsSpec) (domains : List (String × DomainSpec)) (events : EventsSpec)
        (dk : String) (d : DomainSpec) (op : OperationSpec) (im : String),
      (dk, d) ∈ domains → op ∈ d.operations → op.input_model = some im →
      im.isEmpty = false →
      extract_base_model im ∉ models.get_model_names →
      ("Domain '" ++ dk ++ "', operation '" ++ op.name ++ "': Unknown input model '" ++
        im ++ "'") ∈ validate_model_references models domains events) ∧
    (∀ (models : ModelsSpec) (domains : List (String × DomainSpec)) (events : EventsSpec)
        (dk : String) (d : DomainSpec) (op : OperationSpec) (om : String),
      (dk, d) ∈ domains → op ∈ d.operations → op.output_model = some om →
      om.isEmpty = false →
      extract_base_model om ∉ models.get_model_names →
      ("Domain '" ++ dk ++ "', operation '" ++ op.name ++ "': Unknown output model '" ++
        om ++ "'") ∈ validate_model_references models domains events) ∧
    (∀ (models : ModelsSpec) (domains : List (String × DomainSpec)) (events : EventsSpec)
        (ev : EventSpec),
      ev ∈ events.events → ev.message.isEmpty = false →
      ev.message ∉ models.get_model_names →
      ("Event '" ++ ev.name ++ "': Unknown message model '" ++ ev.message ++ "'")
        ∈ validate_model_references models domains events) ∧
    (∀ (manifests : List (String × ServiceManifest)) (domains : List (String × DomainSpec))
        (sname : String) (man : ServiceManifest) (c : ConsumeSpec),
      (sname, man) ∈ manifests → c ∈ man.consumes →
      List.lookup (c.service ++ "/" ++ c.domain) domains = none →
      ("Manifest '" ++ sname ++ "': consumes unknown domain '" ++ c.service ++ "/" ++
        c.domain ++ "'") ∈ validate_consume_references manifests domains) ∧
    (∀ (manifests : List (String × ServiceManifest)) (domains : List (String × DomainSpec))
        (sname : String) (man : ServiceManifest) (c : ConsumeSpec) (d : DomainSpec)
        (opn : String),
      (sname, man) ∈ manifests → c ∈ man.consumes →
      List.lookup (c.service ++ "/" ++ c.domain) domains = some d → opn ∈ c.operations →
      opn ∉ d.operations.map (fun op => op.name) →
      ("Manifest '" ++ sname ++ "': consumes unknown operation '" ++ opn ++
        "' in domain '" ++ c.service ++ "/" ++ c.domain ++ "'")
        ∈ validate_consume_references manifests domains) := by
  refine ⟨?_, ?_, ?_, ?_, ?_, ?_⟩
  · intro models events domains manifests
    constructor
    · intro h
      unfold cross_validate_specs
      have hne : (validate_model_references models domains events).isEmpty = false := by
        cases hx : validate_model_references models domains events with
        | nil => exact absurd hx h
        | cons a l => rfl
      simp [hne]
    · intro h1 h2
      unfold cross_validate_specs
      have hne : (validate_consume_references manifests domains).isEmpty = false := by
        cases hx : validate_consume_references manifests domains with
        | nil => exact absurd hx h2
        | cons a l => rfl
      simp [h1, hne]
  · intro models domains events dk d op im hd hop him hne hcon
    unfold validate_model_references
    simp only [List.mem_append]
    left
    refine List.mem_flatten.mpr ⟨_, List.mem_map_of_mem _ hd, ?_⟩
    refine List.mem_flatten.mpr ⟨_, List.mem_map_of_mem _ hop, ?_⟩
    simp only [List.mem_append]
    left
    rw [him]
    simp [strTruthy, hne, hcon]
  · intro models domains events dk d op om hd hop hom hne hcon
    unfold validate_model_references
    simp only [List.mem_append]
    left
    refine List.mem_flatten.mpr ⟨_, List.mem_map_of_mem _ hd, ?_⟩
    refine List.mem_flatten.mpr ⟨_, List.mem_map_of_mem _ hop, ?_⟩
    simp only [List.mem_append]
    right
    rw [hom]
    simp [strTruthy, hne, hcon]
  · intro models domains events ev hev hne hcon
    unfold validate_model_references
    simp only [List.mem_append]
    right
    refine List.mem_flatten.mpr ⟨_, List.mem_map_of_mem _ hev, ?_⟩
    simp [hne, hcon]
  · intro manifests domains sname man c hman hc hlook
    unfold validate_consume_references
    refine List.mem_flatten.mpr ⟨_, List.mem_map_of_mem _ hman, ?_⟩
    refine List.mem_flatten.mpr ⟨_, List.mem_map_of_mem _ hc, ?_⟩
    simp [hlook]
  · intro manifests domains sname man c d opn hman hc hlook hopn hcon
    unfold validate_consume_references
    refine List.mem_flatten.mpr ⟨_, List.mem_map_of_mem _ hman, ?_⟩
    refine List.mem_flatten.mpr ⟨_, List.mem_map_of_mem _ hc, ?_⟩
    simp only [hlook]
    refine List.mem_flatten.mpr ⟨_, List.mem_map_of_mem _ hopn, ?_⟩
    simp [hcon, String.append_assoc]

/-- C4 counterexample: with one unknown-input-model error and one
unknown-consumed-domain error present (two independent reference errors in two
documents), a single run reports only the model-reference error — the consume
error is absent from the aggregated failure. -/
theorem cross_validation_counterexample :
    validate_model_references cModels cDomains { events := [] } =
      ["Domain 'backend/users', operation 'create_ghost': Unknown input model 'Ghost'"] ∧
    validate_consume_references cManifests cDomains =
      ["Manifest 'tg_bot': consumes unknown domain 'backend/billing'"] ∧
    reportedErrors (cross_validate_specs cModels { events := [] } cDomains cManifests) =
      ["Domain 'backend/users', operation 'create_ghost': Unknown input model 'Ghost'"] ∧
    ¬ "Manifest 'tg_bot': consumes unknown domain 'backend/billing'" ∈
      reportedErrors (cross_validate_specs cModels { events := [] } cDomains cManifests) :=
  ⟨rfl, rfl, rfl, by decide⟩

/-- C4 witness: the amended aggregation behavior at the concrete documents. -/
theorem cross_validation_aggregation_witness :
    cross_validate_specs cModels { events := [] } cDomains cManifests =
      .error (.modelReferenceErrors
        (validate_model_references cModels cDomains { events := [] })) ∧
    ("Domain 'backend/users', operation 'create_ghost': Unknown input model 'Ghost'")
      ∈ validate_model_references cModels cDomains { events := [] } ∧
    ("Manifest 'tg_bot': consumes unknown domain 'backend/billing'")
      ∈ validate_consume_references cManifests cDomains :=
  ⟨((cross_validation_aggregation.1 cModels { events := [] } cDomains cManifests).1
      (by decide)),
   (cross_validation_aggregation.2.1 cModels cDomains { events := [] } "backend/users"
      { name := "users", operations := [cGhostOp] } cGhostOp "Ghost"
      (List.mem_cons_self _ _) (List.mem_cons_self _ _) rfl rfl (by decide)),
   (cross_validation_aggregation.2.2.2.2.1 cManifests cDomains "tg_bot"
      { service := "tg_bot", consumes := [cBillingConsume] } cBillingConsume
      (List.mem_cons_self _ _) (List.mem_cons_self _ _) rfl)⟩
